import Mathlib

/-!
Verification development for the youtube-playlist-enhancer content script.
The DOM is modelled shallowly: an element exposes only the data the code
reads from it (text content, attribute values, selector query results).
Query results of a container are an association list from selector strings
to the list of matching descendant elements, in document order, so that
querySelector is the head of querySelectorAll.
-/

namespace YPE

/-- Result of resolving one descendant element: the code only ever reads its
text content, so that is all the model keeps. -/
structure Elem where
  textContent : String
deriving DecidableEq, Repr

/-- A container element (sheet candidate), modelled by the results the DOM
query primitives return on it. A selector absent from the list matches
nothing. -/
structure Sheet where
  selectorResults : List (String × List Elem)
deriving Repr

/-- Model of parent.querySelectorAll(sel): all matches in document order. -/
def Sheet.queryAll (s : Sheet) (sel : String) : List Elem :=
  (s.selectorResults.lookup sel).getD []

/-- Model of parent.querySelector(sel): the first match, if any. -/
def Sheet.querySelector (s : Sheet) (sel : String) : Option Elem :=
  (s.queryAll sel).head?

/-- DOM selector with fallback strategy, from src/types (SelectorConfig). -/
structure SelectorConfig where
  primary : String
  fallback : List String
deriving DecidableEq, Repr

/-- All DOM selectors used by the extension, from src/content/selectors.ts. -/
structure Selectors where
  sheet : SelectorConfig
  listContainer : SelectorConfig
  listItem : SelectorConfig
  title : SelectorConfig
  createButton : SelectorConfig
deriving DecidableEq, Repr

/-- The SELECTORS constant of src/content/selectors.ts. -/
def SELECTORS : Selectors :=
  { sheet :=
      { primary := "yt-sheet-view-model"
        fallback := ["ytd-add-to-playlist-renderer", "[role=\"dialog\"]"] }
    listContainer :=
      { primary := "yt-list-view-model"
        fallback := ["#playlists", ".ytd-add-to-playlist-renderer"] }
    listItem :=
      { primary := "yt-list-item-view-model"
        fallback := ["ytd-playlist-add-to-option-renderer"] }
    title :=
      { primary := "h2"
        fallback := ["[slot=\"title\"]", "#title", ".title"] }
    createButton :=
      { primary := "yt-button-view-model button[aria-label*=\"建立\"], yt-button-view-model button[aria-label*=\"Create\"]"
        fallback := ["#create-playlist-button", "button[aria-label*=\"new playlist\"]"] } }

/-- Title patterns for identifying the playlist save sheet, from
src/content/selectors.ts (PLAYLIST_TITLE_PATTERNS). -/
def PLAYLIST_TITLE_PATTERNS : List String :=
  [ "儲存至"
  , "保存到"
  , "save to playlist"
  , "save video to"
  , "zu playlist hinzufügen"
  , "añadir a playlist"
  , "ajouter à la playlist"
  , "aggiungi alla playlist"
  , "再生リストに保存"
  , "재생목록에 저장"
  , "сохранить в плейлист" ]

/-- Model of the JavaScript String.prototype.includes: substring test. -/
def jsIncludes (s pat : String) : Bool :=
  decide (pat.toList <:+: s.toList)

/-- Model of the JavaScript toLowerCase on the ASCII fragment the code
relies on, defined over the character list so it evaluates by kernel
reduction. -/
def jsToLower (s : String) : String :=
  String.mk (s.data.map Char.toLower)

/-- Model of the JavaScript trim: strip leading and trailing whitespace. -/
def jsTrim (s : String) : String :=
  String.mk (((s.data.dropWhile Char.isWhitespace).reverse.dropWhile Char.isWhitespace).reverse)

/-- Model of the JavaScript String.prototype.startsWith. -/
def jsStartsWith (s pre : String) : Bool :=
  decide (pre.data <+: s.data)

/-- Fallback loop of findElement: try each fallback selector in order. -/
def findElementFallback (parent : Sheet) : List String → Option Elem
  | [] => none
  | sel :: rest =>
    match parent.querySelector sel with
    | some element => some element
    | none => findElementFallback parent rest

/-- Find element using selector with fallback strategy, from
src/content/selectors.ts (findElement): primary selector first, then each
fallback in order, null if none match. -/
def findElement (parent : Sheet) (config : SelectorConfig) : Option Elem :=
  match parent.querySelector config.primary with
  | some primary => some primary
  | none => findElementFallback parent config.fallback

/-- Fallback loop of findAllElements: return the first fallback tier that
yields at least one element. -/
def findAllElementsFallback (parent : Sheet) : List String → Option (List Elem)
  | [] => none
  | sel :: rest =>
    let elements := parent.queryAll sel
    if elements.length > 0 then some elements
    else findAllElementsFallback parent rest

/-- Find all elements using selector with fallback strategy, from
src/content/selectors.ts (findAllElements): the primary tier if nonempty,
else the first nonempty fallback tier, else the result of querying a
selector that matches nothing. -/
def findAllElements (parent : Sheet) (config : SelectorConfig) : List Elem :=
  let primary := parent.queryAll config.primary
  if primary.length > 0 then primary
  else
    match findAllElementsFallback parent config.fallback with
    | some elements => elements
    | none => parent.queryAll "__never_match__"

/-- Tri-state result of the quick pre-check in the observer module. -/
inductive QuickCheckResult
  | playlist
  | notPlaylist
  | uncertain
deriving DecidableEq, Repr

/-- Normalized title text as the observer computes it: textContent,
lowercased then trimmed. -/
def normalizeTitle (titleElement : Elem) : String :=
  jsTrim (jsToLower titleElement.textContent)

/-- Title pattern test shared by quickPreCheck and isPlaylistSheet:
some pattern, lowercased, occurs as a substring of the title text. -/
def titleMatchesPatterns (titleText : String) : Bool :=
  PLAYLIST_TITLE_PATTERNS.any fun pat => jsIncludes titleText (jsToLower pat)

/-- Quick pre-check of the observer module (quickPreCheck): context-menu
markers reject immediately; a missing title or missing list structure is
uncertain; a non-matching title rejects; otherwise playlist. -/
def quickPreCheck (sheet : Sheet) : QuickCheckResult :=
  let hasContextMenuItems := (sheet.querySelector "ytd-menu-service-item-renderer").isSome
  if hasContextMenuItems then QuickCheckResult.notPlaylist
  else
    match findElement sheet SELECTORS.title with
    | none => QuickCheckResult.uncertain
    | some titleElement =>
      let titleText := normalizeTitle titleElement
      if !(titleMatchesPatterns titleText) then QuickCheckResult.notPlaylist
      else
        let hasListContainer := (sheet.querySelector "yt-list-view-model").isSome
        let hasListItems := (sheet.querySelector "yt-list-item-view-model").isSome
        if !hasListContainer && !hasListItems then QuickCheckResult.uncertain
        else QuickCheckResult.playlist

/-- Full classifier of the observer module (isPlaylistSheet), with its four
validation layers: title match, list structure, context-menu exclusion,
playlist-specific features. -/
def isPlaylistSheet (sheet : Sheet) : Bool :=
  match findElement sheet SELECTORS.title with
  | none => false
  | some titleElement =>
    let titleText := normalizeTitle titleElement
    if !(titleMatchesPatterns titleText) then false
    else
      let hasListContainer := (sheet.querySelector "yt-list-view-model").isSome
      let hasListItems := (sheet.querySelector "yt-list-item-view-model").isSome
      if !hasListContainer && !hasListItems then false
      else
        let hasContextMenuItems := (sheet.querySelector "ytd-menu-service-item-renderer").isSome
        if hasContextMenuItems then false
        else
          let hasFooter := (sheet.querySelector "yt-panel-footer-view-model").isSome
          let hasPlaylistIcons := (sheet.querySelector "[icon=\"yt-icons:playlist_add\"]").isSome
          if !hasFooter && !hasPlaylistIcons && !hasListItems then false
          else true

/-! Selection State Engine, from the multiselect module (SelectionManager).
A list item element is modelled by the data checkIfOriginallySelected reads
from it: the optional role checkbox descendant with its aria-checked
attribute, and the optional trailing bookmark svg path with its d
attribute. -/

/-- Descendant matching the selector for elements with a checkbox role; the
code reads only its aria-checked attribute (None models a missing
attribute). -/
structure CheckboxElem where
  ariaChecked : Option String
deriving DecidableEq, Repr

/-- Svg path element inside the trailing slot; the code reads only its d
attribute. -/
structure PathElem where
  dAttr : Option String
deriving DecidableEq, Repr

/-- Trailing slot of a list item; the code reads only its first svg path
descendant. -/
structure TrailingElem where
  svgPath : Option PathElem
deriving DecidableEq, Repr

/-- A playlist list-item element, modelled by what the selection engine
queries on it. -/
structure ListItemElem where
  roleCheckbox : Option CheckboxElem
  trailing : Option TrailingElem
deriving DecidableEq, Repr

/-- Original-selection inference of the multiselect module
(SelectionManager.checkIfOriginallySelected): a role checkbox, when
present, decides via aria-checked; otherwise a trailing bookmark svg whose
path starts with the filled-glyph prefix and lacks the outline cutout
segment means selected; otherwise false. -/
def checkIfOriginallySelected (element : ListItemElem) : Bool :=
  match element.roleCheckbox with
  | some checkbox => checkbox.ariaChecked == some "true"
  | none =>
    match element.trailing with
    | some trailing =>
      match trailing.svgPath with
      | some svgPath =>
        let d := svgPath.dAttr.getD ""
        if jsStartsWith d "M19 2H5" && !(jsIncludes d "ZM5") then true
        else false
      | none => false
    | none => false

/-- One tracked playlist item of the selection engine (PlaylistItem of
src/types): its element handle, extracted display name, current and
originally observed selection. -/
structure PlaylistItem where
  element : ListItemElem
  name : String
  isSelected : Bool
  wasOriginallySelected : Bool
deriving DecidableEq, Repr

/-- Selection engine state: the tracked items (insertion order models the
Map iteration order of the source) and the saving flag. The DOM-side
decorations (checkbox nodes, footer) are presentational and modelled in
the enhancer state below. -/
structure SelectionManager where
  items : List PlaylistItem
  isSaving : Bool
deriving DecidableEq, Repr

/-- Items to add, from SelectionManager.getItemsToAdd: selected now but not
originally. -/
def SelectionManager.getItemsToAdd (s : SelectionManager) : List PlaylistItem :=
  s.items.filter fun item => item.isSelected && !item.wasOriginallySelected

/-- Items to remove, from SelectionManager.getItemsToRemove: originally
selected but not selected now. -/
def SelectionManager.getItemsToRemove (s : SelectionManager) : List PlaylistItem :=
  s.items.filter fun item => !item.isSelected && item.wasOriginallySelected

/-- Toggle of the selection engine (SelectionManager.toggle), keyed here by
item index in place of the element-keyed Map: when the item is tracked,
flip isSelected; the checkbox re-render and footer count update touch only
the presentation layer. -/
def SelectionManager.toggle (s : SelectionManager) (i : Nat) : SelectionManager :=
  match s.items[i]? with
  | some item => { s with items := s.items.set i { item with isSelected := !item.isSelected } }
  | none => s

/-- Refresh of the selection engine (SelectionManager.refreshState): every
tracked item gets both selection fields reset to the freshly re-inferred
value read from its element. -/
def SelectionManager.refreshState (s : SelectionManager) : SelectionManager :=
  { s with
    items := s.items.map fun item =>
      let isNowSelected := checkIfOriginallySelected item.element
      { item with wasOriginallySelected := isNowSelected, isSelected := isNowSelected } }

/-- Save handler of the selection engine (SelectionManager.handleSave),
modelled on its error-free completion path: rejected while saving, a no-op
on an empty diff, otherwise the synthesized clicks run against the host
DOM and afterward every item gets wasOriginallySelected set to isSelected.
The saving flag is set during the batch and released in the finally block,
so it is false again at completion. -/
def SelectionManager.handleSave (s : SelectionManager) : SelectionManager :=
  if s.isSaving then s
  else
    let itemsToAdd := s.getItemsToAdd
    let itemsToRemove := s.getItemsToRemove
    if itemsToAdd.length == 0 && itemsToRemove.length == 0 then s
    else
      { s with
        items := s.items.map fun item =>
          { item with wasOriginallySelected := item.isSelected } }

/-! Search/Filter Engine, from src/content/search.ts (SearchManager). An
item is its extracted display name together with the hidden state its
element currently carries (the ype-hidden class plus the enforced inline
display override are toggled together and modelled as one flag). -/

/-- One searchable item: display name and whether it is currently hidden by
the filter. -/
structure SearchItem where
  name : String
  hidden : Bool
deriving DecidableEq, Repr

/-- Search engine state: current query, the shared item set, whether the
list container was resolved at initialization, and the no-results message
node with its text when present. -/
structure SearchManager where
  query : String
  items : List SearchItem
  hasListContainer : Bool
  noResultsMessage : Option String
deriving DecidableEq, Repr

/-- Text of the no-results affordance as built in updateNoResultsMessage. -/
def noResultsText (query : String) : String :=
  "找不到「" ++ query ++ "」相關的播放清單"

/-- No-results affordance update, from SearchManager.updateNoResultsMessage:
when shown, create the message under the list container if absent (a
missing container means nothing can be created), else update its text in
place; when not shown, remove it. -/
def SearchManager.updateNoResultsMessage (m : SearchManager) (shouldShow : Bool) : SearchManager :=
  if shouldShow then
    match m.noResultsMessage with
    | none =>
      if m.hasListContainer then { m with noResultsMessage := some (noResultsText m.query) }
      else m
    | some _ => { m with noResultsMessage := some (noResultsText m.query) }
  else
    match m.noResultsMessage with
    | some _ => { m with noResultsMessage := none }
    | none => m

/-- Filter predicate of SearchManager.filterPlaylists for one item: the
normalized query is empty or occurs in the lowercased name. -/
def searchItemMatches (normalizedQuery : String) (item : SearchItem) : Bool :=
  normalizedQuery == "" || jsIncludes (jsToLower item.name) normalizedQuery

/-- Filter pass, from SearchManager.filterPlaylists: normalize the query
(lowercase, trim), show matching items and hide the rest with the inline
override, then show the no-results affordance exactly when the normalized
query is nonempty and no item is visible. -/
def SearchManager.filterPlaylists (m : SearchManager) : SearchManager :=
  let normalizedQuery := jsTrim (jsToLower m.query)
  let items := m.items.map fun item =>
    { item with hidden := !(searchItemMatches normalizedQuery item) }
  let visibleCount := (items.filter fun item => !item.hidden).length
  SearchManager.updateNoResultsMessage { m with items := items }
    (visibleCount == 0 && !(normalizedQuery == ""))

/-- Clear, from SearchManager.clearSearch: reset the query (the input value
and clear-button visibility are presentational) and re-run the filter. -/
def SearchManager.clearSearch (m : SearchManager) : SearchManager :=
  SearchManager.filterPlaylists { m with query := "" }

/-! Enhancement Lifecycle Manager, from src/content/enhancer.ts together
with the decoration bookkeeping of multiselect initialization
(SelectionManager.initialize, addCheckboxToItem, injectActionFooter) and
search initialization (SearchManager.initialize, injectSearchBox). The
sheet DOM is modelled by the decoration nodes the module manages: one
checkbox count per list item, the search wrapper nodes inside the sheet
and the footer nodes in the document, each carrying a node identity.
AbortController instances are modelled by identities plus the set of
aborted ones. -/

/-- Decoration state of the sheet and document. -/
structure EnhDom where
  checkboxCounts : List Nat
  wrappers : List Nat
  footers : List Nat
deriving DecidableEq, Repr

/-- Lifecycle view of a SelectionManager instance: how many items its
initialization tracked and which footer node it owns. -/
structure SelMgr where
  itemCount : Nat
  footerId : Option Nat
deriving DecidableEq, Repr

/-- Lifecycle view of a SearchManager instance: which wrapper node it
owns. -/
structure SearchMgr where
  wrapperId : Option Nat
deriving DecidableEq, Repr

/-- Module-level state of the enhancer: current managers, the global
interceptor controller, the identities of aborted controllers, and a
fresh-identity counter. -/
structure EnhancerState where
  dom : EnhDom
  currentSelectionManager : Option SelMgr
  currentSearchManager : Option SearchMgr
  globalInterceptorController : Option Nat
  abortedControllers : List Nat
  nextId : Nat
deriving DecidableEq, Repr

/-- Remove the node with the given identity, when one is owned. -/
def removeId (ids : List Nat) : Option Nat → List Nat
  | some i => ids.filter fun j => j != i
  | none => ids

/-- Interceptor installation, from installGlobalClickInterceptor: abort any
previous controller, then allocate a fresh one and register the session
listeners under its signal. -/
def installGlobalClickInterceptor (s : EnhancerState) : EnhancerState :=
  let s1 :=
    match s.globalInterceptorController with
    | some c => { s with abortedControllers := c :: s.abortedControllers }
    | none => s
  { s1 with globalInterceptorController := some s1.nextId, nextId := s1.nextId + 1 }

/-- Cleanup, from the cleanup function of the enhancer: abort and drop the
interceptor controller, destroy the search manager (removing its wrapper
node), then destroy the selection manager (removing its footer node). -/
def cleanup (s : EnhancerState) : EnhancerState :=
  let s1 :=
    match s.globalInterceptorController with
    | some c =>
      { s with
        abortedControllers := c :: s.abortedControllers
        globalInterceptorController := none }
    | none => s
  let s2 :=
    match s1.currentSearchManager with
    | some m =>
      { s1 with
        dom := { s1.dom with wrappers := removeId s1.dom.wrappers m.wrapperId }
        currentSearchManager := none }
    | none => s1
  match s2.currentSelectionManager with
  | some m =>
    { s2 with
      dom := { s2.dom with footers := removeId s2.dom.footers m.footerId }
      currentSelectionManager := none }
  | none => s2

/-- Multiselect setup, from setupMultiSelect plus SelectionManager
initialization: without a list container initialization returns early with
no items tracked; otherwise every item without a checkbox gets one
(addCheckboxToItem skips items that already have one), and a footer is
appended only when the document has none (injectActionFooter returns early
otherwise, leaving the manager without an owned footer). -/
def setupMultiSelect (n : Nat) (hasListContainer : Bool) (s : EnhancerState) : EnhancerState :=
  if !hasListContainer then
    { s with currentSelectionManager := some { itemCount := 0, footerId := none } }
  else
    let dom1 :=
      { s.dom with checkboxCounts := s.dom.checkboxCounts.map fun c => if 0 < c then c else c + 1 }
    if dom1.footers.isEmpty then
      { s with
        dom := { dom1 with footers := dom1.footers ++ [s.nextId] }
        currentSelectionManager := some { itemCount := n, footerId := some s.nextId }
        nextId := s.nextId + 1 }
    else
      { s with
        dom := dom1
        currentSelectionManager := some { itemCount := n, footerId := none } }

/-- Search setup, from setupSearch plus SearchManager initialization:
without a list container initialization returns early; injectSearchBox
returns early when the sheet already holds a wrapper; otherwise a fresh
wrapper node is inserted and owned by the manager. -/
def setupSearch (hasListContainer : Bool) (s : EnhancerState) : EnhancerState :=
  if !hasListContainer then
    { s with currentSearchManager := some { wrapperId := none } }
  else if !s.dom.wrappers.isEmpty then
    { s with currentSearchManager := some { wrapperId := none } }
  else
    { s with
      dom := { s.dom with wrappers := s.dom.wrappers ++ [s.nextId] }
      currentSearchManager := some { wrapperId := some s.nextId }
      nextId := s.nextId + 1 }

/-- Item count owned by the current selection manager, as read by the guard
of the search setup in enhanceSheet. -/
def selMgrItemCount (s : EnhancerState) : Nat :=
  match s.currentSelectionManager with
  | some m => m.itemCount
  | none => 0

/-- Attach, from enhanceSheet, on its non-throwing path and with the sheet
abstracted to its item count and list-container presence: install the
interceptor, call cleanup, strip every remaining checkbox node from the
sheet, set up multiselect, and set up search only when the selection
manager tracked at least one item. -/
def enhanceSheet (n : Nat) (hasListContainer : Bool) (s : EnhancerState) : EnhancerState :=
  let s1 := installGlobalClickInterceptor s
  let s2 := cleanup s1
  let s3 := { s2 with dom := { s2.dom with checkboxCounts := s2.dom.checkboxCounts.map fun _ => 0 } }
  let s4 := setupMultiSelect n hasListContainer s3
  if 0 < selMgrItemCount s4 then setupSearch hasListContainer s4 else s4

/-- A freshly opened, undecorated panel with n list items and no active
session. -/
def initialState (n : Nat) : EnhancerState :=
  { dom := { checkboxCounts := List.replicate n 0, wrappers := [], footers := [] }
    currentSelectionManager := none
    currentSearchManager := none
    globalInterceptorController := none
    abortedControllers := []
    nextId := 0 }

/-! Theorems. Spec-side formulations written from the spec wording carry a
spec prefix and exist only to be compared with the source embeddings. -/

/-- Spec-side formulation of the find-one policy, written from the spec
wording: the first element found trying the tiers in order. -/
def specFindOne (parent : Sheet) : List String → Option Elem
  | [] => none
  | sel :: rest =>
    match parent.querySelector sel with
    | some element => some element
    | none => specFindOne parent rest

/-- Spec-side formulation of the find-all policy, written from the spec
wording: the first tier that yields at least one element, taken wholesale;
an empty result set when no tier matches. -/
def specFindAll (parent : Sheet) : List String → List Elem
  | [] => []
  | sel :: rest =>
    if (parent.queryAll sel).isEmpty then specFindAll parent rest
    else parent.queryAll sel

theorem findElementFallback_eq_specFindOne (parent : Sheet) (tiers : List String) :
    findElementFallback parent tiers = specFindOne parent tiers := by
  induction tiers with
  | nil => rfl
  | cons sel rest ih =>
    unfold findElementFallback specFindOne
    cases parent.querySelector sel <;> simp [ih]

theorem findAllElementsFallback_eq_specFindAll (parent : Sheet) (tiers : List String) :
    (match findAllElementsFallback parent tiers with
      | some elements => elements
      | none => ([] : List Elem)) = specFindAll parent tiers := by
  induction tiers with
  | nil => rfl
  | cons sel rest ih =>
    unfold findAllElementsFallback specFindAll
    by_cases hq : (parent.queryAll sel).isEmpty
    · have hlen : ¬((parent.queryAll sel).length > 0) := by
        simp [List.isEmpty_iff] at hq
        simp [hq]
      simp only [hlen, if_neg, if_pos hq, ite_false]
      simpa using ih
    · have hlen : (parent.queryAll sel).length > 0 := by
        simp [List.isEmpty_iff, ← List.length_pos] at hq
        exact hq
      simp [hlen, hq]

theorem specFindAll_cases (parent : Sheet) (tiers : List String) :
    specFindAll parent tiers = []
    ∨ ∃ sel ∈ tiers, specFindAll parent tiers = parent.queryAll sel := by
  induction tiers with
  | nil => exact Or.inl rfl
  | cons sel rest ih =>
    unfold specFindAll
    by_cases hq : (parent.queryAll sel).isEmpty
    · simp only [hq, ite_true]
      rcases ih with h | ⟨sel2, hmem, heq⟩
      · exact Or.inl h
      · exact Or.inr ⟨sel2, List.mem_cons_of_mem _ hmem, heq⟩
    · simp only [hq, ite_false]
      exact Or.inr ⟨sel, List.mem_cons_self _ _, rfl⟩

/-- C9: the find-one and find-all resolver variants follow the same
tier-ordered fallback policy; find-one returns the first element found
trying primary then each fallback in order (none when no tier matches),
find-all returns the first nonempty tier wholesale and never unions tiers,
and yields the empty result set when no tier matches. The hypothesis
states that the sentinel selector of the source, chosen to match nothing,
indeed matches nothing in the document. -/
theorem resolver_fallback_policy (parent : Sheet) (config : SelectorConfig)
    (hNM : parent.queryAll "__never_match__" = []) :
    findElement parent config = specFindOne parent (config.primary :: config.fallback)
    ∧ findAllElements parent config = specFindAll parent (config.primary :: config.fallback)
    ∧ (findAllElements parent config = []
       ∨ ∃ sel ∈ config.primary :: config.fallback,
           findAllElements parent config = parent.queryAll sel) := by
  have hAll : findAllElements parent config = specFindAll parent (config.primary :: config.fallback) := by
    unfold findAllElements specFindAll
    by_cases hq : (parent.queryAll config.primary).isEmpty
    · have hlen : ¬((parent.queryAll config.primary).length > 0) := by
        simp [List.isEmpty_iff] at hq
        simp [hq]
      simp only [hlen, ite_false, hq, ite_true]
      rw [← findAllElementsFallback_eq_specFindAll parent config.fallback]
      cases findAllElementsFallback parent config.fallback <;> simp [hNM]
    · have hlen : (parent.queryAll config.primary).length > 0 := by
        simp [List.isEmpty_iff, ← List.length_pos] at hq
        exact hq
      simp [hlen, hq]
  refine ⟨?_, hAll, ?_⟩
  · unfold findElement specFindOne
    cases parent.querySelector config.primary <;>
      simp [findElementFallback_eq_specFindOne]
  · rw [hAll]
    exact specFindAll_cases parent (config.primary :: config.fallback)

/-- C9 witness: the policy evaluated on a concrete sheet where the primary
tier is empty and the second fallback tier holds two elements. -/
def c9sheet : Sheet :=
  { selectorResults :=
      [ ("ytd-playlist-add-to-option-renderer", [{ textContent := "Watch Later" }, { textContent := "Road Trip" }]) ] }

theorem resolver_fallback_policy_witness :
    (c9sheet.queryAll "__never_match__" = []
      ∧ findElement c9sheet SELECTORS.listItem = some { textContent := "Watch Later" }
      ∧ findAllElements c9sheet SELECTORS.listItem
          = [{ textContent := "Watch Later" }, { textContent := "Road Trip" }])
    ∧ (findElement c9sheet SELECTORS.listItem
        = specFindOne c9sheet (SELECTORS.listItem.primary :: SELECTORS.listItem.fallback)
      ∧ findAllElements c9sheet SELECTORS.listItem
        = specFindAll c9sheet (SELECTORS.listItem.primary :: SELECTORS.listItem.fallback)) := by
  have h := resolver_fallback_policy c9sheet SELECTORS.listItem (by decide)
  exact ⟨⟨by decide, by decide, by decide⟩, h.1, h.2.1⟩

/-- C1: any candidate containing the context-menu structural marker is
classified as not a playlist sheet by both the quick pre-check and the
full classifier, regardless of its title text and of any positive
signals. -/
theorem context_menu_marker_rejects (sheet : Sheet)
    (h : (sheet.querySelector "ytd-menu-service-item-renderer").isSome = true) :
    quickPreCheck sheet = QuickCheckResult.notPlaylist ∧ isPlaylistSheet sheet = false := by
  constructor
  · unfold quickPreCheck
    simp [h]
  · unfold isPlaylistSheet
    cases hfe : findElement sheet SELECTORS.title with
    | none => simp
    | some titleElement =>
      simp only []
      split
      · rfl
      · split
        · rfl
        · simp [h]

/-- C1 witness: a concrete candidate with a matching title, list-item
markers present, and the context-menu marker; classification rejects it. -/
def c1sheet : Sheet :=
  { selectorResults :=
      [ ("ytd-menu-service-item-renderer", [{ textContent := "" }])
      , ("h2", [{ textContent := "Save video to..." }])
      , ("yt-list-view-model", [{ textContent := "" }])
      , ("yt-list-item-view-model", [{ textContent := "Watch Later" }]) ] }

theorem context_menu_marker_rejects_witness :
    (c1sheet.querySelector "ytd-menu-service-item-renderer").isSome = true
    ∧ quickPreCheck c1sheet = QuickCheckResult.notPlaylist
    ∧ isPlaylistSheet c1sheet = false := by
  have h := context_menu_marker_rejects c1sheet (by decide)
  exact ⟨by decide, h.1, h.2⟩

/-- C2: when the title element resolves but its normalized text matches no
pattern of the multilingual phrase set, the quick pre-check answers
not-playlist and the full classifier answers false, so classification
never returns a match. -/
theorem title_mismatch_rejects (sheet : Sheet) (titleElement : Elem)
    (hfe : findElement sheet SELECTORS.title = some titleElement)
    (hnm : titleMatchesPatterns (normalizeTitle titleElement) = false) :
    quickPreCheck sheet = QuickCheckResult.notPlaylist ∧ isPlaylistSheet sheet = false := by
  constructor
  · unfold quickPreCheck
    by_cases hcm : (sheet.querySelector "ytd-menu-service-item-renderer").isSome
    · simp [hcm]
    · simp [hcm, hfe, hnm]
  · unfold isPlaylistSheet
    simp [hfe, hnm]

/-- C2 witness: a concrete candidate titled with a generic context-menu
vocabulary word only; its title matches no full phrase and classification
rejects it. -/
def c2sheet : Sheet :=
  { selectorResults :=
      [ ("h2", [{ textContent := "Share" }])
      , ("yt-list-view-model", [{ textContent := "" }])
      , ("yt-list-item-view-model", [{ textContent := "Watch Later" }]) ] }

theorem title_mismatch_rejects_witness :
    findElement c2sheet SELECTORS.title = some { textContent := "Share" }
    ∧ titleMatchesPatterns (normalizeTitle { textContent := "Share" }) = false
    ∧ quickPreCheck c2sheet = QuickCheckResult.notPlaylist
    ∧ isPlaylistSheet c2sheet = false := by
  have h := title_mismatch_rejects c2sheet { textContent := "Share" } (by decide) (by decide)
  exact ⟨by decide, by decide, h.1, h.2⟩

theorem set_self_of_getElem? {α : Type} (l : List α) (i : Nat) (a : α)
    (h : l[i]? = some a) : l.set i a = l := by
  ext1 j
  rw [List.getElem?_set]
  split
  · next hij =>
    subst hij
    rcases List.getElem?_eq_some.mp h with ⟨h1, h2⟩
    simp [h1, h2]
  · rfl

/-- Spec-side formulation of the glyph signal, written from the claim
wording: the element exposes a trailing bookmark svg whose path attribute
starts with the filled-glyph prefix and lacks the inner-cutout segment. -/
def hasFilledBookmarkGlyph (element : ListItemElem) : Bool :=
  match element.trailing with
  | some trailing =>
    match trailing.svgPath with
    | some svgPath =>
      let d := svgPath.dAttr.getD ""
      jsStartsWith d "M19 2H5" && !(jsIncludes d "ZM5")
    | none => false
  | none => false

/-- C10: when an item exposes neither a checkbox-role element nor the
filled bookmark glyph, the original-selection inference defaults to false;
and whenever a checkbox-role element is present, its aria-checked value
alone decides, taking priority over the glyph check. -/
theorem original_selection_inference (element : ListItemElem) :
    (element.roleCheckbox = none → hasFilledBookmarkGlyph element = false →
      checkIfOriginallySelected element = false)
    ∧ (∀ checkbox, element.roleCheckbox = some checkbox →
      checkIfOriginallySelected element = (checkbox.ariaChecked == some "true")) := by
  constructor
  · intro hcb hglyph
    obtain ⟨rcb, tr⟩ := element
    cases rcb with
    | some checkbox => exact absurd hcb (by simp)
    | none =>
      cases tr with
      | none => rfl
      | some trailing =>
        obtain ⟨sp⟩ := trailing
        cases sp with
        | none => rfl
        | some svgPath =>
          unfold hasFilledBookmarkGlyph at hglyph
          simp only at hglyph
          unfold checkIfOriginallySelected
          simp [hglyph]
  · intro checkbox hcb
    unfold checkIfOriginallySelected
    rw [hcb]

/-- C10 witness: a plain item with no checkbox role and no trailing icon is
inferred unselected, and an item with an aria-checked checkbox role plus a
filled glyph is decided by the role alone. -/
def c10plain : ListItemElem := { roleCheckbox := none, trailing := none }

def c10roleItem : ListItemElem :=
  { roleCheckbox := some { ariaChecked := some "false" }
    trailing := some { svgPath := some { dAttr := some "M19 2H5c-1.1 0-2 .9-2 2v16l7-3 7 3V7" } } }

theorem original_selection_inference_witness :
    (c10plain.roleCheckbox = none ∧ hasFilledBookmarkGlyph c10plain = false
      ∧ checkIfOriginallySelected c10plain = false)
    ∧ (c10roleItem.roleCheckbox = some { ariaChecked := some "false" }
      ∧ hasFilledBookmarkGlyph c10roleItem = true
      ∧ checkIfOriginallySelected c10roleItem = false) := by
  refine ⟨⟨rfl, rfl, ?_⟩, ⟨rfl, by decide, ?_⟩⟩
  · exact (original_selection_inference c10plain).1 rfl rfl
  · have h := (original_selection_inference c10roleItem).2 { ariaChecked := some "false" } rfl
    simpa using h

/-- Concrete selection state used for the C5 artifacts: one tracked item,
saving flag set. -/
def c5state : SelectionManager :=
  { items :=
      [ { element := { roleCheckbox := none, trailing := none }
          name := "Road Trip", isSelected := false, wasOriginallySelected := false } ]
    isSaving := true }

/-- C5 counterexample: with the saving flag set, a toggle on a tracked item
still changes its selection state, refuting the part of the claim that no
toggle may change any selection state during an in-progress batch apply;
the source toggle is not gated by the saving flag. -/
theorem toggle_during_save_changes_state :
    c5state.isSaving = true
    ∧ ((c5state.toggle 0).items.map fun item => item.isSelected)
        ≠ (c5state.items.map fun item => item.isSelected) := by
  constructor
  · rfl
  · decide

/-- C5 amended: while the saving flag is true a second invocation of the
save operation is rejected and returns with no state change; toggle,
however, is not gated by the flag and can still flip selection during a
batch apply. -/
theorem save_rejected_while_saving (s : SelectionManager) (h : s.isSaving = true) :
    s.handleSave = s := by
  unfold SelectionManager.handleSave
  simp [h]

theorem save_rejected_while_saving_witness :
    c5state.isSaving = true ∧ c5state.handleSave = c5state :=
  ⟨rfl, save_rejected_while_saving c5state rfl⟩

/-- Concrete selection state used for the C6 artifacts: one tracked item
with a nonempty diff, not saving. -/
def c6state : SelectionManager :=
  { items :=
      [ { element := { roleCheckbox := none, trailing := none }
          name := "Watch Later", isSelected := true, wasOriginallySelected := false } ]
    isSaving := false }

/-- C6 counterexample: the save handler, an operation distinct from
refreshState, also mutates wasOriginallySelected after a successful batch,
refuting the part of the claim that only refreshState mutates it. -/
theorem save_mutates_original_state :
    ((c6state.handleSave).items.map fun item => item.wasOriginallySelected)
      ≠ (c6state.items.map fun item => item.wasOriginallySelected) := by
  decide

/-- C6 amended: toggle flips only the isSelected field of the toggled item,
leaving every wasOriginallySelected field, every name, every other item
and the saving flag unchanged; refreshState resets both selection fields
of every item to the freshly re-inferred value read from its element; but
refreshState is not the only mutator of wasOriginallySelected, since a
successful batch save sets it to isSelected. -/
theorem toggle_refresh_frame (s : SelectionManager) (i : Nat) :
    ((s.toggle i).items.map fun item => item.wasOriginallySelected)
        = (s.items.map fun item => item.wasOriginallySelected)
    ∧ ((s.toggle i).items.map fun item => item.name)
        = (s.items.map fun item => item.name)
    ∧ ((s.toggle i).items[i]?
        = s.items[i]?.map fun item => { item with isSelected := !item.isSelected })
    ∧ (∀ j, j ≠ i → (s.toggle i).items[j]? = s.items[j]?)
    ∧ (s.toggle i).isSaving = s.isSaving
    ∧ ((s.refreshState).items.map fun item => item.wasOriginallySelected)
        = (s.items.map fun item => checkIfOriginallySelected item.element)
    ∧ ((s.refreshState).items.map fun item => item.isSelected)
        = (s.items.map fun item => checkIfOriginallySelected item.element) := by
  refine ⟨?_, ?_, ?_, ?_, ?_, ?_, ?_⟩
  case _ =>
    unfold SelectionManager.toggle
    cases hg : s.items[i]? with
    | none => simp only [hg]
    | some item =>
      simp only [hg, List.map_set]
      have hm : (s.items.map fun item => item.wasOriginallySelected)[i]?
          = some item.wasOriginallySelected := by
        rw [List.getElem?_map, hg]
        rfl
      exact set_self_of_getElem? _ _ _ hm
  case _ =>
    unfold SelectionManager.toggle
    cases hg : s.items[i]? with
    | none => simp only [hg]
    | some item =>
      simp only [hg, List.map_set]
      have hm : (s.items.map fun item => item.name)[i]? = some item.name := by
        rw [List.getElem?_map, hg]
        rfl
      exact set_self_of_getElem? _ _ _ hm
  case _ =>
    unfold SelectionManager.toggle
    cases hg : s.items[i]? with
    | none => simp [hg]
    | some item =>
      have hlen : i < s.items.length := (List.getElem?_eq_some.mp hg).1
      simp [hg, List.getElem?_set_self hlen]
  case _ =>
    intro j hj
    unfold SelectionManager.toggle
    cases hg : s.items[i]? with
    | none => simp only [hg]
    | some item =>
      simp only [hg]
      simp [List.getElem?_set_ne (Ne.symm hj)]
  case _ =>
    unfold SelectionManager.toggle
    cases hg : s.items[i]? <;> simp only [hg]
  case _ =>
    unfold SelectionManager.refreshState
    simp
  case _ =>
    unfold SelectionManager.refreshState
    simp

theorem toggle_refresh_frame_witness :
    ((c6state.toggle 0).items.map fun item => item.wasOriginallySelected)
        = (c6state.items.map fun item => item.wasOriginallySelected)
    ∧ (∀ j, j ≠ 0 → (c6state.toggle 0).items[j]? = c6state.items[j]?)
    ∧ ((c6state.refreshState).items.map fun item => item.isSelected)
        = (c6state.items.map fun item => checkIfOriginallySelected item.element) := by
  have h := toggle_refresh_frame c6state 0
  exact ⟨h.1, h.2.2.2.1, h.2.2.2.2.2.2⟩

/-- Concrete selection state used for the C7 witness: a nonempty diff, not
saving. -/
def c7state : SelectionManager :=
  { items :=
      [ { element := { roleCheckbox := none, trailing := none }
          name := "Road Trip", isSelected := true, wasOriginallySelected := false }
      , { element := { roleCheckbox := none, trailing := none }
          name := "Watch Later", isSelected := false, wasOriginallySelected := true } ]
    isSaving := false }

/-- C7: a batch apply that starts (not already saving) on a nonempty diff
and completes without error leaves wasOriginallySelected equal to
isSelected on every tracked item, so both diff queries return empty lists
until a further toggle. -/
theorem batch_apply_clears_diff (s : SelectionManager)
    (hsv : s.isSaving = false)
    (hdiff : ((s.getItemsToAdd).length == 0 && (s.getItemsToRemove).length == 0) = false) :
    (∀ item ∈ (s.handleSave).items, item.wasOriginallySelected = item.isSelected)
    ∧ (s.handleSave).getItemsToAdd = []
    ∧ (s.handleSave).getItemsToRemove = [] := by
  unfold SelectionManager.handleSave
  simp only [hsv, Bool.false_eq_true, if_false, hdiff]
  refine ⟨?_, ?_, ?_⟩
  · intro item hmem
    rcases List.mem_map.mp hmem with ⟨orig, _, heq⟩
    rw [← heq]
  · unfold SelectionManager.getItemsToAdd
    rw [List.filter_map]
    have : ((fun item => item.isSelected && !item.wasOriginallySelected) ∘
        fun item => { item with wasOriginallySelected := item.isSelected } : PlaylistItem → Bool)
        = fun item => item.isSelected && !item.isSelected := rfl
    rw [this]
    simp [Bool.and_not_self]
  · unfold SelectionManager.getItemsToRemove
    rw [List.filter_map]
    have : ((fun item => !item.isSelected && item.wasOriginallySelected) ∘
        fun item => { item with wasOriginallySelected := item.isSelected } : PlaylistItem → Bool)
        = fun item => !item.isSelected && item.isSelected := rfl
    rw [this]
    simp [Bool.not_and_self]

theorem batch_apply_clears_diff_witness :
    (∀ item ∈ (c7state.handleSave).items, item.wasOriginallySelected = item.isSelected)
    ∧ (c7state.handleSave).getItemsToAdd = []
    ∧ (c7state.handleSave).getItemsToRemove = [] :=
  batch_apply_clears_diff c7state rfl (by decide)

theorem updateNoResultsMessage_items (m : SearchManager) (b : Bool) :
    (m.updateNoResultsMessage b).items = m.items
    ∧ (m.updateNoResultsMessage b).query = m.query := by
  unfold SearchManager.updateNoResultsMessage
  cases b with
  | true => cases hnr : m.noResultsMessage <;> cases hc : m.hasListContainer <;> simp [hnr, hc]
  | false => cases hnr : m.noResultsMessage <;> simp [hnr]

theorem updateNoResultsMessage_isSome (m : SearchManager) (b : Bool)
    (hlc : m.hasListContainer = true) :
    (m.updateNoResultsMessage b).noResultsMessage.isSome = b := by
  unfold SearchManager.updateNoResultsMessage
  cases b with
  | true => cases hnr : m.noResultsMessage <;> simp [hnr, hlc]
  | false => cases hnr : m.noResultsMessage <;> simp [hnr]

theorem updateNoResultsMessage_false (m : SearchManager) :
    (m.updateNoResultsMessage false).noResultsMessage = none := by
  unfold SearchManager.updateNoResultsMessage
  cases hnr : m.noResultsMessage <;> simp [hnr]

theorem filterPlaylists_items (m : SearchManager) :
    (m.filterPlaylists).items
      = m.items.map fun item =>
          { item with hidden := !(searchItemMatches (jsTrim (jsToLower m.query)) item) } := by
  unfold SearchManager.filterPlaylists
  rw [(updateNoResultsMessage_items _ _).1]

theorem filterPlaylists_query (m : SearchManager) :
    (m.filterPlaylists).query = m.query := by
  unfold SearchManager.filterPlaylists
  rw [(updateNoResultsMessage_items _ _).2]

theorem filterPlaylists_visibleCount (m : SearchManager) :
    (((m.items.map fun item =>
        { item with hidden := !(searchItemMatches (jsTrim (jsToLower m.query)) item) }).filter
          fun item => !item.hidden).length
      = (m.items.filter fun item => searchItemMatches (jsTrim (jsToLower m.query)) item).length) := by
  rw [List.filter_map]
  have hcomp : (((fun item => !item.hidden) ∘ fun item =>
      { item with hidden := !(searchItemMatches (jsTrim (jsToLower m.query)) item) }) :
        SearchItem → Bool)
      = fun item => searchItemMatches (jsTrim (jsToLower m.query)) item := by
    funext item
    simp [Function.comp]
  rw [hcomp, List.length_map]

theorem filterPlaylists_noResults_isSome (m : SearchManager)
    (hlc : m.hasListContainer = true) :
    (m.filterPlaylists).noResultsMessage.isSome
      = (((m.items.filter fun item =>
            searchItemMatches (jsTrim (jsToLower m.query)) item).length == 0)
          && !(jsTrim (jsToLower m.query) == "")) := by
  simp only [SearchManager.filterPlaylists]
  rw [updateNoResultsMessage_isSome, filterPlaylists_visibleCount]
  exact hlc

/-- C8: after a filter pass an item is visible exactly when the normalized
(lowercased, trimmed) query is empty or occurs in the lowercased display
name, so the empty query shows every item; the no-results affordance is
present exactly when the normalized query is nonempty and no item matches
it; and clearSearch resets the query to empty, re-shows every item and
removes the affordance. The hypothesis records that the list container was
resolved at initialization, which holds in any session whose filter got
wired up. -/
theorem filter_visibility (m : SearchManager) (hlc : m.hasListContainer = true) :
    (∀ item ∈ (m.filterPlaylists).items,
        item.hidden = false
          ↔ (jsTrim (jsToLower m.query) = ""
              ∨ jsIncludes (jsToLower item.name) (jsTrim (jsToLower m.query)) = true))
    ∧ ((m.filterPlaylists).noResultsMessage.isSome = true
        ↔ (jsTrim (jsToLower m.query) ≠ ""
            ∧ ∀ item ∈ m.items,
                jsIncludes (jsToLower item.name) (jsTrim (jsToLower m.query)) = false))
    ∧ (m.clearSearch).query = ""
    ∧ (∀ item ∈ (m.clearSearch).items, item.hidden = false)
    ∧ (m.clearSearch).noResultsMessage = none := by
  refine ⟨?_, ?_, ?_, ?_, ?_⟩
  · intro item hmem
    rw [filterPlaylists_items] at hmem
    rcases List.mem_map.mp hmem with ⟨orig, _, heq⟩
    subst heq
    by_cases hq : jsTrim (jsToLower m.query) = ""
    · simp [searchItemMatches, hq]
    · simp [searchItemMatches, hq]
  · rw [filterPlaylists_noResults_isSome m hlc]
    simp only [Bool.and_eq_true, beq_iff_eq, Bool.not_eq_true', beq_eq_false_iff_ne,
      List.length_eq_zero, List.filter_eq_nil_iff]
    constructor
    · rintro ⟨hall, hne⟩
      refine ⟨hne, fun item hitem => ?_⟩
      have := hall item hitem
      simp [searchItemMatches, hne] at this
      exact this
    · rintro ⟨hne, hall⟩
      refine ⟨fun item hitem => ?_, hne⟩
      simp [searchItemMatches, hne, hall item hitem]
  · unfold SearchManager.clearSearch
    rw [filterPlaylists_query]
  · intro item hmem
    unfold SearchManager.clearSearch at hmem
    rw [filterPlaylists_items] at hmem
    rcases List.mem_map.mp hmem with ⟨orig, _, heq⟩
    subst heq
    have hempty : jsTrim (jsToLower "") = "" := by decide
    simp [searchItemMatches, hempty]
  · unfold SearchManager.clearSearch
    have h := filterPlaylists_noResults_isSome { m with query := "" } hlc
    have hempty : jsTrim (jsToLower "") = "" := by decide
    simp [hempty] at h
    cases hx : (SearchManager.filterPlaylists { m with query := "" }).noResultsMessage with
    | none => rfl
    | some v =>
      rw [hx] at h
      simp at h

/-- C8 witness: a panel with three names filtered by a query matching one
of them, then cleared. -/
def c8state : SearchManager :=
  { query := "愛"
    items :=
      [ { name := "Watch Later", hidden := false }
      , { name := "我的最愛", hidden := false }
      , { name := "Road Trip", hidden := false } ]
    hasListContainer := true
    noResultsMessage := none }

theorem filter_visibility_witness :
    (∀ item ∈ (c8state.filterPlaylists).items,
        item.hidden = false
          ↔ (jsTrim (jsToLower c8state.query) = ""
              ∨ jsIncludes (jsToLower item.name) (jsTrim (jsToLower c8state.query)) = true))
    ∧ ((c8state.filterPlaylists).noResultsMessage.isSome = true
        ↔ (jsTrim (jsToLower c8state.query) ≠ ""
            ∧ ∀ item ∈ c8state.items,
                jsIncludes (jsToLower item.name) (jsTrim (jsToLower c8state.query)) = false))
    ∧ (c8state.clearSearch).query = ""
    ∧ (∀ item ∈ (c8state.clearSearch).items, item.hidden = false)
    ∧ (c8state.clearSearch).noResultsMessage = none :=
  filter_visibility c8state rfl

theorem setupMultiSelect_interceptor (n : Nat) (hlc : Bool) (s : EnhancerState) :
    (setupMultiSelect n hlc s).globalInterceptorController = s.globalInterceptorController
    ∧ (setupMultiSelect n hlc s).abortedControllers = s.abortedControllers := by
  unfold setupMultiSelect
  split
  · exact ⟨rfl, rfl⟩
  · simp only []
    split
    · exact ⟨rfl, rfl⟩
    · exact ⟨rfl, rfl⟩

theorem setupSearch_interceptor (hlc : Bool) (s : EnhancerState) :
    (setupSearch hlc s).globalInterceptorController = s.globalInterceptorController
    ∧ (setupSearch hlc s).abortedControllers = s.abortedControllers := by
  unfold setupSearch
  split
  · exact ⟨rfl, rfl⟩
  · split
    · exact ⟨rfl, rfl⟩
    · exact ⟨rfl, rfl⟩

theorem cleanup_aborts (s : EnhancerState) (c : Nat)
    (h : s.globalInterceptorController = some c) :
    (cleanup s).globalInterceptorController = none
    ∧ c ∈ (cleanup s).abortedControllers := by
  unfold cleanup
  simp only [h]
  cases hsm : s.currentSearchManager <;> cases hsel : s.currentSelectionManager <;>
    simp [hsm, hsel]

theorem enhanceSheet_tail_interceptor (n : Nat) (hlc : Bool) (t : EnhancerState) :
    ((if 0 < selMgrItemCount (setupMultiSelect n hlc t)
        then setupSearch hlc (setupMultiSelect n hlc t)
        else setupMultiSelect n hlc t).globalInterceptorController
      = t.globalInterceptorController)
    ∧ ((if 0 < selMgrItemCount (setupMultiSelect n hlc t)
        then setupSearch hlc (setupMultiSelect n hlc t)
        else setupMultiSelect n hlc t).abortedControllers
      = t.abortedControllers) := by
  by_cases hif : 0 < selMgrItemCount (setupMultiSelect n hlc t)
  · rw [if_pos hif]
    constructor
    · rw [(setupSearch_interceptor hlc _).1, (setupMultiSelect_interceptor n hlc t).1]
    · rw [(setupSearch_interceptor hlc _).2, (setupMultiSelect_interceptor n hlc t).2]
  · rw [if_neg hif]
    exact setupMultiSelect_interceptor n hlc t

/-- C3: each attach does install the session interception once, but the
cleanup call that follows inside the same enhanceSheet invocation aborts
the freshly allocated controller and nulls it, so at the end of every
attach the interception handle is already aborted instead of staying
registered until the next explicit cleanup. This holds for every starting
state, every item count and either list-container status. -/
theorem enhanceSheet_aborts_fresh_interceptor (n : Nat) (hasListContainer : Bool)
    (s : EnhancerState) :
    (enhanceSheet n hasListContainer s).globalInterceptorController = none
    ∧ s.nextId ∈ (enhanceSheet n hasListContainer s).abortedControllers := by
  have h1 : (installGlobalClickInterceptor s).globalInterceptorController = some s.nextId := by
    unfold installGlobalClickInterceptor
    cases hc : s.globalInterceptorController <;> simp [hc]
  have h2 := cleanup_aborts (installGlobalClickInterceptor s) s.nextId h1
  unfold enhanceSheet
  simp only []
  constructor
  · rw [(enhanceSheet_tail_interceptor n hasListContainer _).1]
    exact h2.1
  · rw [(enhanceSheet_tail_interceptor n hasListContainer _).2]
    exact h2.2

/-- C4: attaching twice in succession to a fresh panel yields exactly one
active session with no duplicated decorations: every item carries exactly
one injected checkbox, exactly one footer and at most one search wrapper
exist (exactly one as soon as the panel has items), and the manager slots
hold one selection manager and, when items exist, one search manager. -/
theorem attach_twice_idempotent (n : Nat) :
    (enhanceSheet n true (enhanceSheet n true (initialState n))).dom.checkboxCounts
        = List.replicate n 1
    ∧ (enhanceSheet n true (enhanceSheet n true (initialState n))).dom.footers.length = 1
    ∧ (enhanceSheet n true (enhanceSheet n true (initialState n))).dom.wrappers.length = min n 1
    ∧ (enhanceSheet n true (enhanceSheet n true (initialState n))).currentSelectionManager.isSome
        = true
    ∧ (enhanceSheet n true (enhanceSheet n true (initialState n))).currentSearchManager.isSome
        = decide (0 < n) := by
  cases n with
  | zero => decide
  | succ m =>
    simp only [enhanceSheet, installGlobalClickInterceptor, cleanup, setupMultiSelect,
      setupSearch, selMgrItemCount, initialState, removeId, List.map_replicate]
    simp [Nat.succ_min_succ]

end YPE
